import Mathlib

/-!
Verification of the Instagram MCP adapter core: rate limiter
(`src/mcps/instagram/src/core/rate-limiter.ts`), credential store
(`auth.ts`), dispatch layer (`client.ts`), the media-processing poll loop
(`tools/content/posts.ts`), and the Contabo request helper
(`mcps/contabo/index.js`).

Shallow embedding conventions:
- `Date.now()` is passed explicitly as `now : Int` (milliseconds).
- JavaScript numbers that hold integer quantities (bucket fields, header
  values) are modelled as `Int`; quota headers are modelled already parsed
  (a header is "provided" when present, non-empty and numeric — the JS
  truthiness check plus `parseInt`).
- Mutation of `this` becomes explicit state passing; each method returns
  its result together with the updated state.
- Strings hashed char-by-char (`charCodeAt`) are modelled as `List Char`
  with `Char.toNat` (exact for the BMP characters that occur in secrets).
-/

/-- The seven rate-limit categories of `RateLimits` in `types.ts`. -/
inductive RLCategory where
  | read
  | write
  | content_publish
  | stories
  | messages
  | follows
  | likes
deriving DecidableEq, Repr

/-- One quota bucket (`RateLimitBucket` in `types.ts`). -/
structure RateLimitBucket where
  limit : Int
  remaining : Int
  reset_at : Int
  window_seconds : Int
deriving DecidableEq, Repr

/-- A `limit`/`window_seconds` pair of the static table (`RateLimitConfig`). -/
structure RateLimitConfig where
  limit : Int
  window_seconds : Int
deriving DecidableEq, Repr

/-- The static table `DEFAULT_LIMITS` of `rate-limiter.ts`. -/
def DEFAULT_LIMITS : RLCategory → RateLimitConfig
  | .read => ⟨200, 3600⟩
  | .write => ⟨25, 3600⟩
  | .content_publish => ⟨25, 86400⟩
  | .stories => ⟨100, 86400⟩
  | .messages => ⟨100, 86400⟩
  | .follows => ⟨60, 3600⟩
  | .likes => ⟨60, 3600⟩

/-- The `RateLimiter` state: the enabled flag and one bucket per category.
`initializeBuckets` populates every category, so the bucket map is total
(the `if (!bucket) return true` branches of the source are unreachable). -/
structure RateLimiter where
  enabled : Bool
  buckets : RLCategory → RateLimitBucket

/-- `new RateLimiter(enabled)` at time `now`: every bucket starts at its
default limit with `reset_at = now + window_seconds * 1000`. -/
def RateLimiter.init (enabled : Bool) (now : Int) : RateLimiter :=
  ⟨enabled, fun c =>
    ⟨(DEFAULT_LIMITS c).limit, (DEFAULT_LIMITS c).limit,
      now + (DEFAULT_LIMITS c).window_seconds * 1000,
      (DEFAULT_LIMITS c).window_seconds⟩⟩

/-- Replace the bucket of one category, leaving the others alone. -/
def RateLimiter.setBucket (rl : RateLimiter) (c : RLCategory)
    (b : RateLimitBucket) : RateLimiter :=
  ⟨rl.enabled, fun c' => if c' = c then b else rl.buckets c'⟩

/-- `resetBucket(category)`: remaining back to the static default limit,
`reset_at = Date.now() + config.window_seconds * 1000` (both from
`DEFAULT_LIMITS`, not from the current fields of the bucket). -/
def RateLimiter.resetBucket (rl : RateLimiter) (c : RLCategory) (now : Int) :
    RateLimiter :=
  let b := rl.buckets c
  rl.setBucket c
    ⟨b.limit, (DEFAULT_LIMITS c).limit,
      now + (DEFAULT_LIMITS c).window_seconds * 1000, b.window_seconds⟩

/-- `canExecute(category)`: the answer together with the (possibly
lazily refreshed) state. -/
def RateLimiter.canExecute (rl : RateLimiter) (c : RLCategory) (now : Int) :
    Bool × RateLimiter :=
  if !rl.enabled then (true, rl)
  else if now ≥ (rl.buckets c).reset_at then (true, rl.resetBucket c now)
  else ((rl.buckets c).remaining > 0, rl)

/-- `consume(category)`: lazily refresh, then either refuse (`remaining <= 0`)
or decrement. -/
def RateLimiter.consume (rl : RateLimiter) (c : RLCategory) (now : Int) :
    Bool × RateLimiter :=
  if !rl.enabled then (true, rl)
  else
    let rl1 := if now ≥ (rl.buckets c).reset_at then rl.resetBucket c now else rl
    let b := rl1.buckets c
    if b.remaining ≤ 0 then (false, rl1)
    else (true, rl1.setBucket c ⟨b.limit, b.remaining - 1, b.reset_at, b.window_seconds⟩)

/-- `getWaitTime(category)`: 0 when disabled or `remaining > 0`, otherwise
`reset_at - now` floored at 0. -/
def RateLimiter.getWaitTime (rl : RateLimiter) (c : RLCategory) (now : Int) : Int :=
  if !rl.enabled then 0
  else
    let b := rl.buckets c
    if b.remaining > 0 then 0
    else max 0 (b.reset_at - now)

/-- `getWaitTimeFormatted(category)`. `getWaitTime` is never negative, so
`Math.floor` on its divisions coincides with natural division via `Int.toNat`. -/
def RateLimiter.getWaitTimeFormatted (rl : RateLimiter) (c : RLCategory)
    (now : Int) : String :=
  let ms := (rl.getWaitTime c now).toNat
  if ms = 0 then "0s"
  else
    let seconds := ms / 1000
    let minutes := seconds / 60
    let hours := minutes / 60
    if hours > 0 then toString hours ++ "h " ++ toString (minutes % 60) ++ "m"
    else if minutes > 0 then toString minutes ++ "m " ++ toString (seconds % 60) ++ "s"
    else toString seconds ++ "s"

/-- The parsed view of the `x-ratelimit-*` response headers consumed by
`updateFromHeaders`: a field is `some v` when the header is present,
non-empty (the JS truthiness guard) and parses to the integer `v`. -/
structure QuotaHeaders where
  remaining : Option Int
  reset : Option Int
  limit : Option Int
deriving DecidableEq, Repr

/-- No quota headers present. -/
def QuotaHeaders.none' : QuotaHeaders := ⟨none, none, none⟩

/-- `updateFromHeaders(category, headers)`: each provided header value
overwrites the corresponding bucket field unconditionally
(`x-ratelimit-reset` is in seconds, hence the `* 1000`). -/
def RateLimiter.updateFromHeaders (rl : RateLimiter) (c : RLCategory)
    (h : QuotaHeaders) : RateLimiter :=
  let b := rl.buckets c
  rl.setBucket c
    ⟨(h.limit.getD b.limit),
      (h.remaining.getD b.remaining),
      ((h.reset.map (· * 1000)).getD b.reset_at),
      b.window_seconds⟩

/-- Run `consume` once per entry of a list of call times, collecting the
returned booleans in order. -/
def RateLimiter.consumeSeq (rl : RateLimiter) (c : RLCategory) :
    List Int → List Bool × RateLimiter
  | [] => ([], rl)
  | t :: ts =>
    let (ok, rl') := rl.consume c t
    let (oks, rl'') := rl'.consumeSeq c ts
    (ok :: oks, rl'')

/-! ### C1: consuming `capacity` times exhausts a fresh bucket -/

lemma setBucket_self (rl : RateLimiter) (c : RLCategory) (b : RateLimitBucket) :
    ((rl.setBucket c b).buckets c) = b := by
  simp [RateLimiter.setBucket]

lemma setBucket_enabled (rl : RateLimiter) (c : RLCategory) (b : RateLimitBucket) :
    (rl.setBucket c b).enabled = rl.enabled := rfl

lemma consumeSeq_spec (c : RLCategory) :
    ∀ (ts : List Int) (rl : RateLimiter),
      rl.enabled = true →
      (rl.buckets c).remaining = (ts.length : Int) →
      (∀ t ∈ ts, t < (rl.buckets c).reset_at) →
      (rl.consumeSeq c ts).1 = List.replicate ts.length true ∧
      ((rl.consumeSeq c ts).2.buckets c).remaining = 0 ∧
      ((rl.consumeSeq c ts).2.buckets c).reset_at = (rl.buckets c).reset_at ∧
      (rl.consumeSeq c ts).2.enabled = true := by
  intro ts
  induction ts with
  | nil =>
    intro rl hen hrem _
    simp [RateLimiter.consumeSeq, hen, hrem.symm] at *
    omega
  | cons t ts ih =>
    intro rl hen hrem htimes
    have ht : t < (rl.buckets c).reset_at := htimes t (List.mem_cons_self t ts)
    have hstep : rl.consume c t =
        (true, rl.setBucket c
          ⟨(rl.buckets c).limit, (rl.buckets c).remaining - 1,
            (rl.buckets c).reset_at, (rl.buckets c).window_seconds⟩) := by
      have hnotreset : ¬ t ≥ (rl.buckets c).reset_at := by omega
      have hpos : ¬ (rl.buckets c).remaining ≤ 0 := by
        rw [hrem]; simp
      simp [RateLimiter.consume, hen, hnotreset, hpos]
    have hrem' : ((rl.setBucket c
        ⟨(rl.buckets c).limit, (rl.buckets c).remaining - 1,
          (rl.buckets c).reset_at, (rl.buckets c).window_seconds⟩).buckets c).remaining
        = (ts.length : Int) := by
      rw [setBucket_self]; rw [hrem]; simp
    have hrst : ((rl.setBucket c
        ⟨(rl.buckets c).limit, (rl.buckets c).remaining - 1,
          (rl.buckets c).reset_at, (rl.buckets c).window_seconds⟩).buckets c).reset_at
        = (rl.buckets c).reset_at := by
      rw [setBucket_self]
    have ihx := ih (rl.setBucket c
        ⟨(rl.buckets c).limit, (rl.buckets c).remaining - 1,
          (rl.buckets c).reset_at, (rl.buckets c).window_seconds⟩)
      (by rw [setBucket_enabled]; exact hen) hrem'
      (by intro t' ht'; rw [hrst]; exact htimes t' (List.mem_cons_of_mem _ ht'))
    refine ⟨?_, ?_, ?_, ?_⟩
    · simp only [RateLimiter.consumeSeq, hstep]
      simp [ihx.1, List.replicate_succ]
    · simp only [RateLimiter.consumeSeq, hstep]
      simpa using ihx.2.1
    · simp only [RateLimiter.consumeSeq, hstep]
      simpa [hrst] using ihx.2.2.1
    · simp only [RateLimiter.consumeSeq, hstep]
      simpa using ihx.2.2.2

lemma default_limit_toNat (c : RLCategory) :
    ((DEFAULT_LIMITS c).limit.toNat : Int) = (DEFAULT_LIMITS c).limit := by
  cases c <;> rfl

/-- C1: for every category, starting from a freshly initialized enabled
limiter, `consume` called `capacity` times within the first window returns
`true` every time; at any further in-window time, `canExecute` is `false`
and one more `consume` returns `false`. -/
theorem c1_consume_capacity_exhausts (c : RLCategory) (t0 tExtra : Int)
    (ts : List Int)
    (hlen : ts.length = (DEFAULT_LIMITS c).limit.toNat)
    (hin : ∀ t ∈ ts, t < t0 + (DEFAULT_LIMITS c).window_seconds * 1000)
    (hext : tExtra < t0 + (DEFAULT_LIMITS c).window_seconds * 1000) :
    ((RateLimiter.init true t0).consumeSeq c ts).1 =
      List.replicate (DEFAULT_LIMITS c).limit.toNat true ∧
    ((((RateLimiter.init true t0).consumeSeq c ts).2.canExecute c tExtra).1 = false) ∧
    ((((RateLimiter.init true t0).consumeSeq c ts).2.consume c tExtra).1 = false) := by
  have hinit_rem : ((RateLimiter.init true t0).buckets c).remaining = (ts.length : Int) := by
    rw [hlen]
    simpa [RateLimiter.init] using (default_limit_toNat c).symm
  have hinit_rst : ((RateLimiter.init true t0).buckets c).reset_at =
      t0 + (DEFAULT_LIMITS c).window_seconds * 1000 := rfl
  have hspec := consumeSeq_spec c ts (RateLimiter.init true t0) rfl hinit_rem
    (by intro t ht; rw [hinit_rst]; exact hin t ht)
  obtain ⟨hres, hrem0, hrst, hen⟩ := hspec
  refine ⟨by rw [hres, hlen], ?_, ?_⟩
  · have hnr : ¬ tExtra ≥ ((((RateLimiter.init true t0).consumeSeq c ts).2).buckets c).reset_at := by
      rw [hrst, hinit_rst]; omega
    simp [RateLimiter.canExecute, hen, hnr, hrem0]
  · have hnr : ¬ tExtra ≥ ((((RateLimiter.init true t0).consumeSeq c ts).2).buckets c).reset_at := by
      rw [hrst, hinit_rst]; omega
    simp [RateLimiter.consume, hen, hnr, hrem0]

/-- Witness for C1 at the `write` category: 25 in-window `consume` calls all
succeed, then `canExecute` and a 26th `consume` are both `false`. -/
theorem c1_consume_capacity_exhausts_witness :
    ((RateLimiter.init true 0).consumeSeq .write (List.replicate 25 0)).1 =
      List.replicate (DEFAULT_LIMITS .write).limit.toNat true ∧
    ((((RateLimiter.init true 0).consumeSeq .write (List.replicate 25 0)).2.canExecute .write 7).1 = false) ∧
    ((((RateLimiter.init true 0).consumeSeq .write (List.replicate 25 0)).2.consume .write 7).1 = false) :=
  c1_consume_capacity_exhausts .write 0 7 (List.replicate 25 0)
    (by decide) (by decide) (by decide)

/-! ### C2 / C10: what `canExecute` does to the bucket (lazy refresh) -/

lemma default_limit_pos (c : RLCategory) : 0 < (DEFAULT_LIMITS c).limit := by
  cases c <;> decide

/-- C2 (amended): when enabled, `canExecute` refreshes the bucket as soon as
`now ≥ reset_at` — setting `remaining` to the static default
limit of the category (not the possibly resynced `limit` field) and `reset_at` to
`now + default window * 1000` — and leaves the state untouched otherwise;
in both cases the returned boolean equals `remaining > 0` on the
post-call bucket. -/
theorem c2_canExecute_lazy_refresh (rl : RateLimiter) (c : RLCategory) (now : Int)
    (hen : rl.enabled = true) :
    ((rl.canExecute c now).1 =
      decide (0 < (((rl.canExecute c now).2).buckets c).remaining)) ∧
    (now ≥ (rl.buckets c).reset_at →
      (rl.canExecute c now).2 = rl.resetBucket c now ∧
      (((rl.canExecute c now).2).buckets c).remaining = (DEFAULT_LIMITS c).limit ∧
      (((rl.canExecute c now).2).buckets c).reset_at =
        now + (DEFAULT_LIMITS c).window_seconds * 1000) ∧
    (¬ now ≥ (rl.buckets c).reset_at →
      (rl.canExecute c now).1 = decide (0 < (rl.buckets c).remaining) ∧
      (rl.canExecute c now).2 = rl) := by
  by_cases hr : now ≥ (rl.buckets c).reset_at
  · have hfresh : (rl.canExecute c now) = (true, rl.resetBucket c now) := by
      simp [RateLimiter.canExecute, hen, hr]
    refine ⟨?_, fun _ => ⟨by rw [hfresh], ?_, ?_⟩, fun h => absurd hr h⟩
    · rw [hfresh]
      simp [RateLimiter.resetBucket, setBucket_self]
      exact default_limit_pos c
    · rw [hfresh]; simp [RateLimiter.resetBucket, setBucket_self]
    · rw [hfresh]; simp [RateLimiter.resetBucket, setBucket_self]
  · have hsame : (rl.canExecute c now) =
        (decide (0 < (rl.buckets c).remaining), rl) := by
      simp [RateLimiter.canExecute, hen, hr]
    refine ⟨?_, fun h => absurd h hr, fun _ => ⟨by rw [hsame], by rw [hsame]⟩⟩
    rw [hsame]

/-- Witness for C2 (amended), both branches at concrete states: a fresh
enabled limiter refreshed at the window boundary, and checked inside the
window. -/
theorem c2_canExecute_lazy_refresh_witness :
    ((((RateLimiter.init true 0).canExecute .read 3600000).2).buckets .read).remaining =
      (DEFAULT_LIMITS .read).limit ∧
    ((RateLimiter.init true 0).canExecute .read 5).2 = RateLimiter.init true 0 :=
  ⟨((c2_canExecute_lazy_refresh (RateLimiter.init true 0) .read 3600000 rfl).2.1
      (by decide)).2.1,
    ((c2_canExecute_lazy_refresh (RateLimiter.init true 0) .read 5 rfl).2.2
      (by decide)).2⟩

/-- C2 counterexample: after the server resyncs the `read` capacity to 5,
the lazy refresh restores `remaining` to the static default 200, not to the
capacity field of the bucket — so "canProceed ... restores remaining to capacity" fails. -/
theorem c2_refresh_not_capacity_counterexample :
    ((((RateLimiter.init true 0).updateFromHeaders .read ⟨none, none, some 5⟩).canExecute
        .read 3600000).2.buckets .read).remaining = 200 ∧
    ((((RateLimiter.init true 0).updateFromHeaders .read ⟨none, none, some 5⟩).canExecute
        .read 3600000).2.buckets .read).limit = 5 ∧
    ¬ ((((RateLimiter.init true 0).updateFromHeaders .read ⟨none, none, some 5⟩).canExecute
        .read 3600000).2.buckets .read).remaining =
      ((((RateLimiter.init true 0).updateFromHeaders .read ⟨none, none, some 5⟩).canExecute
        .read 3600000).2.buckets .read).limit := by
  refine ⟨by decide, by decide, by decide⟩

/-- C10 (amended): when disabled or inside the window, `canExecute` leaves
the whole limiter untouched; on refresh it rewrites only `remaining` (to the
static default, which may be below the current `remaining`) and `reset_at`
of the checked category, preserving `limit`, `window_seconds`, every other
other bucket, and the enabled flag. -/
theorem c10_canExecute_frame (rl : RateLimiter) (c : RLCategory) (now : Int) :
    (rl.enabled = false → (rl.canExecute c now).2 = rl) ∧
    (rl.enabled = true → ¬ now ≥ (rl.buckets c).reset_at →
      (rl.canExecute c now).2 = rl) ∧
    (rl.enabled = true → now ≥ (rl.buckets c).reset_at →
      ((rl.canExecute c now).2.buckets c) =
        ⟨(rl.buckets c).limit, (DEFAULT_LIMITS c).limit,
          now + (DEFAULT_LIMITS c).window_seconds * 1000,
          (rl.buckets c).window_seconds⟩ ∧
      (∀ c', c' ≠ c → (rl.canExecute c now).2.buckets c' = rl.buckets c') ∧
      (rl.canExecute c now).2.enabled = rl.enabled) := by
  refine ⟨fun hdis => ?_, fun hen hr => ?_, fun hen hr => ?_⟩
  · simp [RateLimiter.canExecute, hdis]
  · simp [RateLimiter.canExecute, hen, hr]
  · have hfresh : (rl.canExecute c now) = (true, rl.resetBucket c now) := by
      simp [RateLimiter.canExecute, hen, hr]
    refine ⟨?_, fun c' hc' => ?_, ?_⟩
    · rw [hfresh]; simp [RateLimiter.resetBucket, setBucket_self]
    · rw [hfresh]; simp [RateLimiter.resetBucket, RateLimiter.setBucket, hc']
    · rw [hfresh]; simp [RateLimiter.resetBucket, setBucket_enabled]

/-- Witness for C10 (amended) at concrete states: a disabled limiter and an
in-window check are untouched; a boundary check rewrites the `read` bucket. -/
theorem c10_canExecute_frame_witness :
    ((RateLimiter.init false 0).canExecute .read 99).2 = RateLimiter.init false 0 ∧
    ((RateLimiter.init true 0).canExecute .likes 99).2 = RateLimiter.init true 0 ∧
    (((RateLimiter.init true 0).canExecute .read 3600000).2.buckets .read) =
      ⟨200, 200, 3600000 + 3600 * 1000, 3600⟩ :=
  ⟨(c10_canExecute_frame (RateLimiter.init false 0) .read 99).1 rfl,
    (c10_canExecute_frame (RateLimiter.init true 0) .likes 99).2.1 rfl (by decide),
    by
      have h := ((c10_canExecute_frame (RateLimiter.init true 0) .read 3600000).2.2
        rfl (by decide)).1
      rw [h]; decide⟩

/-- C10 counterexample: after a server resync reports `remaining = 300` on
`read` (capacity 200), the lazy refresh inside `canExecute` lowers
`remaining` from 300 to 200 — so "canProceed never decreases remaining" and
"unchanged or reset to the full capacity" both fail. -/
theorem c10_canExecute_decreases_counterexample :
    ((((RateLimiter.init true 0).updateFromHeaders .read ⟨some 300, none, none⟩).canExecute
        .read 3600000).2.buckets .read).remaining <
      (((RateLimiter.init true 0).updateFromHeaders .read ⟨some 300, none, none⟩).buckets
        .read).remaining := by
  decide

/-! ### C4: the `0 ≤ remaining ≤ capacity` invariant -/

/-- The bucket invariant of the spec data model, together with the fact that
no operation other than `updateFromHeaders` ever changes `limit`. -/
def RLInv (rl : RateLimiter) : Prop :=
  ∀ c, 0 ≤ (rl.buckets c).remaining ∧
    (rl.buckets c).remaining ≤ (rl.buckets c).limit ∧
    (rl.buckets c).limit = (DEFAULT_LIMITS c).limit

lemma RLInv_resetBucket (rl : RateLimiter) (c : RLCategory) (now : Int)
    (h : RLInv rl) : RLInv (rl.resetBucket c now) := by
  intro c'
  by_cases hc : c' = c
  · subst hc
    simp [RateLimiter.resetBucket, setBucket_self]
    obtain ⟨_, _, h3⟩ := h c'
    exact ⟨le_of_lt (default_limit_pos c'), le_of_eq h3.symm, h3⟩
  · simpa [RateLimiter.resetBucket, RateLimiter.setBucket, hc] using h c'

/-- C4 (amended): starting from initialization, the invariant
`0 ≤ remaining ≤ capacity` (with `capacity` still at its static default) is
preserved by `canExecute` (including its lazy refresh) and by `consume`;
`updateFromHeaders` is excluded — a server-reported value overwrites the
local one unconditionally and can break the bound. -/
theorem c4_invariant_no_resync :
    (∀ (e : Bool) (t0 : Int), RLInv (RateLimiter.init e t0)) ∧
    (∀ (rl : RateLimiter) (c : RLCategory) (now : Int),
      RLInv rl → RLInv (rl.canExecute c now).2) ∧
    (∀ (rl : RateLimiter) (c : RLCategory) (now : Int),
      RLInv rl → RLInv (rl.consume c now).2) := by
  refine ⟨?_, ?_, ?_⟩
  · intro e t0 c
    simp [RateLimiter.init]
    exact le_of_lt (default_limit_pos c)
  · intro rl c now h
    unfold RateLimiter.canExecute
    split
    · exact h
    · split
      · exact RLInv_resetBucket rl c now h
      · exact h
  · intro rl c now h
    unfold RateLimiter.consume
    split
    · exact h
    · have h1 : RLInv (if now ≥ (rl.buckets c).reset_at
          then rl.resetBucket c now else rl) := by
        split
        · exact RLInv_resetBucket rl c now h
        · exact h
      set rl1 := if now ≥ (rl.buckets c).reset_at
          then rl.resetBucket c now else rl with hrl1
      simp only []
      split
      · exact h1
      · rename_i hpos
        intro c'
        by_cases hc : c' = c
        · subst hc
          simp [setBucket_self]
          obtain ⟨ha, hb, hc2⟩ := h1 c'
          refine ⟨by omega, by omega, hc2⟩
        · simpa [RateLimiter.setBucket, hc] using h1 c'

/-- Witness for C4 (amended): the invariant holds on the freshly initialized
limiter and is preserved across one `canExecute` and one `consume`. -/
theorem c4_invariant_no_resync_witness :
    RLInv ((((RateLimiter.init true 0).canExecute .read 5).2.consume .read 6).2) :=
  c4_invariant_no_resync.2.2 _ .read 6
    (c4_invariant_no_resync.2.1 _ .read 5 (c4_invariant_no_resync.1 true 0))

/-- C4 counterexample: after `updateFromHeaders` reports `remaining = 300`
on the `read` bucket (capacity 200), `remaining ≤ capacity` is violated, so
the invariant does not hold over sequences that include a resync. -/
theorem c4_resync_breaks_invariant_counterexample :
    ¬ ((((RateLimiter.init true 0).updateFromHeaders .read
          ⟨some 300, none, none⟩).buckets .read).remaining ≤
        (((RateLimiter.init true 0).updateFromHeaders .read
          ⟨some 300, none, none⟩).buckets .read).limit) := by
  decide

/-! ### Credential store (`auth.ts`): tokens, headers, derived device ids -/

/-- ToInt32 of JavaScript: the effect of `x & x` (and of `<<`) on a number. -/
def toInt32 (n : Int) : Int :=
  if n % 4294967296 < 2147483648 then n % 4294967296
  else n % 4294967296 - 4294967296

/-- One loop iteration of the hash in `generateDeviceId`/`generateAndroidId`:
`hash = ((hash << 5) - hash) + char; hash = hash & hash`. -/
def jsHashStep (h : Int) (code : Nat) : Int :=
  toInt32 (toInt32 (h * 32) - h + code)

/-- The seed hash of `generateDeviceId`/`generateAndroidId` over the chars of
the seed (`charCodeAt` modelled by `Char.toNat`). -/
def jsHash (seed : List Char) : Int :=
  seed.foldl (fun h ch => jsHashStep h ch.toNat) 0

/-- `Number.prototype.toString(16)` digits, most significant first, via a
fuel-guarded division loop (`fuel ≥ n` gives the exact representation). -/
def toHexCore : Nat → Nat → List Char
  | 0, _ => []
  | fuel + 1, n =>
    if n = 0 then [] else toHexCore fuel (n / 16) ++ [Nat.digitChar (n % 16)]

/-- `Math.abs(hash).toString(16)` (the `"0"` case included). -/
def hexRepr (n : Nat) : List Char :=
  if n = 0 then ['0'] else toHexCore n n

/-- JS `String.prototype.padStart(len, c)` on char lists. -/
def padStart (len : Nat) (c : Char) (l : List Char) : List Char :=
  List.replicate (len - l.length) c ++ l

/-- JS `String.prototype.slice(a, b)` on char lists (`0 ≤ a ≤ b`). -/
def jsSlice (a b : Nat) (l : List Char) : List Char :=
  (l.drop a).take (b - a)

/-- The UUID-shaped template of `generateDeviceId` applied to the padded hex. -/
def uuidFromHex (hex : List Char) : List Char :=
  jsSlice 0 8 hex ++ '-' :: jsSlice 8 12 hex ++ '-' :: '4' :: jsSlice 13 16 hex
    ++ '-' :: 'a' :: jsSlice 17 20 hex ++ '-' :: jsSlice 20 32 hex

/-- `generateDeviceId` on a seed string. -/
def deviceIdOfSeed (seed : List Char) : List Char :=
  uuidFromHex (padStart 32 '0' (hexRepr (jsHash seed).natAbs))

/-- `generateAndroidId` on a seed string:
`android-` followed by `Math.abs(hash).toString(16).slice(0, 16)`. -/
def androidIdOfSeed (seed : List Char) : List Char :=
  "android-".toList ++ jsSlice 0 16 (hexRepr (jsHash seed).natAbs)

/-- The token state of `InstagramAuth` (`this.tokens`): the Graph API access
token and the Private API session id, each possibly absent. Auxiliary fields
(csrf token, user id, expiry) play no role in the claims under study. -/
structure AuthTokens where
  graph_access_token : Option String
  private_session_id : Option String
deriving DecidableEq, Repr

/-- JS truthiness of an optional string (absent and empty are falsy). -/
def jsTruthy : Option String → Bool
  | some v => v ≠ ""
  | none => false

/-- `initializeTokens`: each token is taken from configuration only when the
configured value is truthy. -/
def initializeTokens (access_token session_id : Option String) : AuthTokens :=
  ⟨if jsTruthy access_token then access_token else none,
    if jsTruthy session_id then session_id else none⟩

def hasGraphApiAuth (tk : AuthTokens) : Bool := jsTruthy tk.graph_access_token

def hasPrivateApiAuth (tk : AuthTokens) : Bool := jsTruthy tk.private_session_id

def isAuthenticated (tk : AuthTokens) : Bool :=
  hasGraphApiAuth tk || hasPrivateApiAuth tk

/-- The seed of the derived identifiers:
`this.tokens.private_api?.session_id`, with the literal `default` when falsy. -/
def seedOf (session : Option String) : List Char :=
  match session with
  | some s => if s = "" then "default".toList else s.toList
  | none => "default".toList

def generateDeviceId (tk : AuthTokens) : List Char :=
  deviceIdOfSeed (seedOf tk.private_session_id)

def generateAndroidId (tk : AuthTokens) : List Char :=
  androidIdOfSeed (seedOf tk.private_session_id)

/-- `getGraphApiHeaders`: throws when the token is falsy, else the bearer
header map. Thrown `Error`s are modelled as `Except.error` of their message. -/
def getGraphApiHeaders (tk : AuthTokens) : Except String (List (String × String)) :=
  match tk.graph_access_token with
  | some t =>
    if t = "" then .error "Graph API token non disponible"
    else .ok [("Authorization", "Bearer " ++ t), ("Content-Type", "application/json")]
  | none => .error "Graph API token non disponible"

/-- `getPrivateApiHeaders`: throws when the session id is falsy, else the
cookie header set with the derived device identifiers. -/
def getPrivateApiHeaders (tk : AuthTokens) : Except String (List (String × String)) :=
  match tk.private_session_id with
  | some sid =>
    if sid = "" then .error "Private API session non disponible"
    else .ok
      [("Cookie", "sessionid=" ++ sid),
        ("User-Agent", "Instagram 275.0.0.27.98 Android (33/13; 420dpi; 1080x2400; samsung; SM-G991B; o1s; exynos2100; fr_FR; 458229237)"),
        ("X-IG-App-ID", "936619743392459"),
        ("X-IG-Device-ID", String.mk (generateDeviceId tk)),
        ("X-IG-Android-ID", String.mk (generateAndroidId tk)),
        ("Content-Type", "application/x-www-form-urlencoded"),
        ("Accept-Language", "fr-FR,fr;q=0.9")]
  | none => .error "Private API session non disponible"

/-- The two credential schemes (`ApiType` in `client.ts`): token-bearer
Graph API and session-cookie Private API. -/
inductive ApiType where
  | graph
  | priv
deriving DecidableEq, Repr

/-- The `isAvailable(scheme)` of the spec, realized by
`hasGraphApiAuth`/`hasPrivateApiAuth`. -/
def isAvailable (tk : AuthTokens) : ApiType → Bool
  | .graph => hasGraphApiAuth tk
  | .priv => hasPrivateApiAuth tk

/-- The `headersFor(scheme)` of the spec, realized by
`getGraphApiHeaders`/`getPrivateApiHeaders`. -/
def headersFor (tk : AuthTokens) : ApiType → Except String (List (String × String))
  | .graph => getGraphApiHeaders tk
  | .priv => getPrivateApiHeaders tk

/-- Whether an `Except` result is a success. -/
def exceptOk {ε α : Type} : Except ε α → Bool
  | .ok _ => true
  | .error _ => false

/-! ### C7: `headersFor` fails exactly when the scheme is unavailable -/

/-- C7: for each scheme, `headersFor` fails (the credential-missing throw)
iff `isAvailable` is false; on success the header map carries the
scheme-appropriate authentication entries (`Authorization: Bearer <token>`
for the Graph scheme; the session `Cookie` plus both derived device
identifier headers for the Private scheme). -/
theorem c7_headersFor_available (tk : AuthTokens) (s : ApiType) :
    (exceptOk (headersFor tk s) = false ↔ isAvailable tk s = false) ∧
    (∀ hs, headersFor tk s = .ok hs →
      (s = .graph →
        ∃ t, tk.graph_access_token = some t ∧ t ≠ "" ∧
          ("Authorization", "Bearer " ++ t) ∈ hs) ∧
      (s = .priv →
        ∃ sid, tk.private_session_id = some sid ∧ sid ≠ "" ∧
          ("Cookie", "sessionid=" ++ sid) ∈ hs ∧
          ("X-IG-Device-ID", String.mk (generateDeviceId tk)) ∈ hs ∧
          ("X-IG-Android-ID", String.mk (generateAndroidId tk)) ∈ hs)) := by
  cases s
  · constructor
    · cases htk : tk.graph_access_token with
      | none =>
        simp [headersFor, getGraphApiHeaders, isAvailable, hasGraphApiAuth,
          jsTruthy, htk, exceptOk]
      | some t =>
        by_cases ht : t = "" <;>
          simp [headersFor, getGraphApiHeaders, isAvailable, hasGraphApiAuth,
            jsTruthy, htk, ht, exceptOk]
    · intro hs hok
      refine ⟨fun _ => ?_, fun h => by cases h⟩
      cases htk : tk.graph_access_token with
      | none => simp [headersFor, getGraphApiHeaders, htk] at hok
      | some t =>
        by_cases ht : t = ""
        · simp [headersFor, getGraphApiHeaders, htk, ht] at hok
        · refine ⟨t, rfl, ht, ?_⟩
          simp [headersFor, getGraphApiHeaders, htk, ht] at hok
          simp [← hok]
  · constructor
    · cases htk : tk.private_session_id with
      | none =>
        simp [headersFor, getPrivateApiHeaders, isAvailable, hasPrivateApiAuth,
          jsTruthy, htk, exceptOk]
      | some sid =>
        by_cases hsid : sid = "" <;>
          simp [headersFor, getPrivateApiHeaders, isAvailable, hasPrivateApiAuth,
            jsTruthy, htk, hsid, exceptOk]
    · intro hs hok
      refine ⟨fun h => (by cases h), fun _ => ?_⟩
      cases htk : tk.private_session_id with
      | none => simp [headersFor, getPrivateApiHeaders, htk] at hok
      | some sid =>
        by_cases hsid : sid = ""
        · simp [headersFor, getPrivateApiHeaders, htk, hsid] at hok
        · refine ⟨sid, rfl, hsid, ?_⟩
          simp [headersFor, getPrivateApiHeaders, htk, hsid] at hok
          simp [← hok]

/-- Witness for C7 at a concrete token state with both schemes available:
the Graph headers carry the bearer token and the Private headers exist. -/
theorem c7_headersFor_available_witness :
    ∃ t, (AuthTokens.mk (some "tok") (some "sess")).graph_access_token = some t ∧
      t ≠ "" ∧
      ("Authorization", "Bearer " ++ t) ∈
        [("Authorization", "Bearer " ++ "tok"), ("Content-Type", "application/json")] :=
  ((c7_headersFor_available ⟨some "tok", some "sess"⟩ .graph).2
    [("Authorization", "Bearer " ++ "tok"), ("Content-Type", "application/json")]
    (by rfl)).1 rfl

/-! ### C8: the derived device identifier as a function of the secret -/

/-- Value of a lowercase hex digit character. -/
def hexVal (c : Char) : Nat :=
  if c.toNat ≥ 97 then c.toNat - 87 else c.toNat - 48

/-- Read a most-significant-first hex digit list back as a number. -/
def ofHex (l : List Char) : Nat :=
  l.foldl (fun acc c => 16 * acc + hexVal c) 0

/-- Recover the hash from a generated device id: the last 12 characters of
the 36-character identifier are the low 12 hex digits of the padded hash. -/
def decodeDeviceId (id : List Char) : Nat := ofHex (id.drop 24)

lemma hexVal_digitChar : ∀ d, d < 16 → hexVal (Nat.digitChar d) = d := by decide

lemma ofHex_append_singleton (l : List Char) (c : Char) :
    ofHex (l ++ [c]) = 16 * ofHex l + hexVal c := by
  simp [ofHex, List.foldl_append]

lemma ofHex_toHexCore : ∀ fuel n, n ≤ fuel → ofHex (toHexCore fuel n) = n := by
  intro fuel
  induction fuel with
  | zero =>
    intro n h
    have hn : n = 0 := Nat.le_zero.mp h
    simp [toHexCore, ofHex, hn]
  | succ fuel ih =>
    intro n h
    by_cases hn : n = 0
    · simp [toHexCore, ofHex, hn]
    · have hdiv : n / 16 ≤ fuel := by
        have h1 : n / 16 < n := Nat.div_lt_self (Nat.pos_of_ne_zero hn) (by norm_num)
        omega
      rw [toHexCore, if_neg hn, ofHex_append_singleton, ih _ hdiv,
        hexVal_digitChar _ (Nat.mod_lt n (by norm_num))]
      omega

lemma ofHex_hexRepr (n : Nat) : ofHex (hexRepr n) = n := by
  by_cases hn : n = 0
  · subst hn; decide
  · rw [hexRepr, if_neg hn]
    exact ofHex_toHexCore n n le_rfl

lemma ofHex_replicate_zero_append :
    ∀ (k : Nat) (l : List Char), ofHex (List.replicate k '0' ++ l) = ofHex l := by
  intro k
  induction k with
  | zero => simp
  | succ k ih =>
    intro l
    have h0 : (16 : Nat) * 0 + hexVal '0' = 0 := by decide
    simp only [List.replicate_succ, List.cons_append, ofHex, List.foldl_cons] at *
    rw [h0] at *
    exact ih l

lemma toHexCore_length :
    ∀ fuel n k, n ≤ fuel → n < 16 ^ k → (toHexCore fuel n).length ≤ k := by
  intro fuel
  induction fuel with
  | zero =>
    intro n k h _
    have hn : n = 0 := Nat.le_zero.mp h
    simp [toHexCore, hn]
  | succ fuel ih =>
    intro n k h hk
    by_cases hn : n = 0
    · simp [toHexCore, hn]
    · obtain ⟨k', rfl⟩ : ∃ k', k = k' + 1 := by
        cases k with
        | zero => exact absurd hk (by simp; omega)
        | succ k' => exact ⟨k', rfl⟩
      have hdivle : n / 16 ≤ fuel := by
        have h1 : n / 16 < n := Nat.div_lt_self (Nat.pos_of_ne_zero hn) (by norm_num)
        omega
      have hdivlt : n / 16 < 16 ^ k' := by
        rw [Nat.div_lt_iff_lt_mul (by norm_num)]
        calc n < 16 ^ (k' + 1) := hk
        _ = 16 ^ k' * 16 := by ring
      have := ih (n / 16) k' hdivle hdivlt
      rw [toHexCore, if_neg hn]
      simp only [List.length_append, List.length_cons, List.length_nil]
      omega

lemma hexRepr_length (n : Nat) (h : n < 16 ^ 8) : (hexRepr n).length ≤ 8 := by
  by_cases hn : n = 0
  · subst hn; decide
  · rw [hexRepr, if_neg hn]
    exact toHexCore_length n n 8 le_rfl h

lemma toInt32_bounds (n : Int) :
    -2147483648 ≤ toInt32 n ∧ toInt32 n < 2147483648 := by
  unfold toInt32
  have h1 : 0 ≤ n % 4294967296 := Int.emod_nonneg _ (by norm_num)
  have h2 : n % 4294967296 < 4294967296 := Int.emod_lt_of_pos _ (by norm_num)
  split <;> omega

lemma jsHashStep_bounds (h : Int) (code : Nat) :
    -2147483648 ≤ jsHashStep h code ∧ jsHashStep h code < 2147483648 := by
  unfold jsHashStep
  exact toInt32_bounds _

lemma jsHash_bounds (seed : List Char) :
    -2147483648 ≤ jsHash seed ∧ jsHash seed < 2147483648 := by
  have main : ∀ (l : List Char) (acc : Int),
      -2147483648 ≤ acc → acc < 2147483648 →
      -2147483648 ≤ l.foldl (fun h ch => jsHashStep h ch.toNat) acc ∧
      l.foldl (fun h ch => jsHashStep h ch.toNat) acc < 2147483648 := by
    intro l
    induction l with
    | nil => intro acc h1 h2; exact ⟨h1, h2⟩
    | cons ch l ih =>
      intro acc _ _
      have := jsHashStep_bounds acc ch.toNat
      exact ih (jsHashStep acc ch.toNat) this.1 this.2
  exact main seed 0 (by norm_num) (by norm_num)

lemma jsHash_natAbs_lt (seed : List Char) : (jsHash seed).natAbs < 16 ^ 8 := by
  have h := jsHash_bounds seed
  have : (16 : Nat) ^ 8 = 4294967296 := by norm_num
  rw [this]
  omega

lemma jsSlice_replicate_front (a b m : Nat) (c : Char) (l : List Char)
    (hab : a ≤ b) (hbm : b ≤ m) :
    jsSlice a b (List.replicate m c ++ l) = List.replicate (b - a) c := by
  unfold jsSlice
  rw [List.drop_append_eq_append_drop, List.drop_replicate]
  have ha : a - (List.replicate m c).length = 0 := by simp; omega
  rw [ha, List.drop_zero, List.take_append_eq_append_take, List.take_replicate]
  have h1 : min (b - a) (m - a) = b - a := by omega
  have h2 : (b - a) - (List.replicate (m - a) c).length = 0 := by simp; omega
  rw [h1, h2, List.take_zero, List.append_nil]

lemma jsSlice_last (m : Nat) (c : Char) (l : List Char)
    (hm : 20 ≤ m) (hlen : m + l.length = 32) :
    jsSlice 20 32 (List.replicate m c ++ l) = List.replicate (m - 20) c ++ l := by
  unfold jsSlice
  rw [List.drop_append_eq_append_drop, List.drop_replicate]
  have ha : 20 - (List.replicate m c).length = 0 := by simp; omega
  rw [ha, List.drop_zero]
  apply List.take_of_length_le
  simp
  omega

lemma uuidFromHex_padded (hx : List Char) (h : hx.length ≤ 8) :
    uuidFromHex (padStart 32 '0' hx) =
      "00000000-0000-4000-a000-".toList ++
        (List.replicate (12 - hx.length) '0' ++ hx) := by
  unfold uuidFromHex padStart
  rw [jsSlice_replicate_front 0 8 _ '0' hx (by omega) (by omega),
    jsSlice_replicate_front 8 12 _ '0' hx (by omega) (by omega),
    jsSlice_replicate_front 13 16 _ '0' hx (by omega) (by omega),
    jsSlice_replicate_front 17 20 _ '0' hx (by omega) (by omega),
    jsSlice_last _ '0' hx (by omega) (by omega)]
  have h20 : 32 - hx.length - 20 = 12 - hx.length := by omega
  rw [h20]
  rfl

lemma decode_uuid (n : Nat) (h : n < 16 ^ 8) :
    decodeDeviceId (uuidFromHex (padStart 32 '0' (hexRepr n))) = n := by
  rw [uuidFromHex_padded _ (hexRepr_length n h)]
  unfold decodeDeviceId
  have h24 : ("00000000-0000-4000-a000-".toList).length = 24 := rfl
  rw [← h24, List.drop_left, ofHex_replicate_zero_append, ofHex_hexRepr]

lemma jsSlice_0_16_hexRepr (n : Nat) (h : n < 16 ^ 8) :
    jsSlice 0 16 (hexRepr n) = hexRepr n := by
  unfold jsSlice
  rw [List.drop_zero]
  exact List.take_of_length_le (le_trans (hexRepr_length n h) (by norm_num))

/-- C8 (amended): the derived device identifier is a pure function of the
stored secret — equal session ids give equal identifiers — and two seeds are
mapped to distinct identifiers (both the UUID-shaped device id and the
android id) whenever the magnitudes of their 32-bit string hashes differ;
hash collisions do exist, so "distinct" does not hold for all pairs. -/
theorem c8_device_identifier (tk1 tk2 : AuthTokens)
    (hsame : tk1.private_session_id = tk2.private_session_id)
    (s1 s2 : List Char)
    (hne : (jsHash s1).natAbs ≠ (jsHash s2).natAbs) :
    generateDeviceId tk1 = generateDeviceId tk2 ∧
    deviceIdOfSeed s1 ≠ deviceIdOfSeed s2 ∧
    androidIdOfSeed s1 ≠ androidIdOfSeed s2 := by
  refine ⟨by unfold generateDeviceId; rw [hsame], fun heq => hne ?_, fun heq => hne ?_⟩
  · have h1 := decode_uuid (jsHash s1).natAbs (jsHash_natAbs_lt s1)
    have h2 := decode_uuid (jsHash s2).natAbs (jsHash_natAbs_lt s2)
    unfold deviceIdOfSeed at heq
    rw [← h1, ← h2, heq]
  · unfold androidIdOfSeed at heq
    have heq2 := List.append_cancel_left heq
    rw [jsSlice_0_16_hexRepr _ (jsHash_natAbs_lt s1),
      jsSlice_0_16_hexRepr _ (jsHash_natAbs_lt s2)] at heq2
    rw [← ofHex_hexRepr (jsHash s1).natAbs, heq2, ofHex_hexRepr]

/-- Witness for C8 (amended) at concrete secrets: equal session ids yield
the same identifier, and the secrets "a" and "b" (whose hashes differ) yield
distinct device and android ids. -/
theorem c8_device_identifier_witness :
    generateDeviceId ⟨none, some "s"⟩ = generateDeviceId ⟨some "tok", some "s"⟩ ∧
    deviceIdOfSeed "a".toList ≠ deviceIdOfSeed "b".toList ∧
    androidIdOfSeed "a".toList ≠ androidIdOfSeed "b".toList :=
  c8_device_identifier ⟨none, some "s"⟩ ⟨some "tok", some "s"⟩ rfl
    "a".toList "b".toList (by decide)

/-- C8 counterexample: the distinct non-empty secrets "Aa" and "BB" collide
under the 31-based 32-bit string hash (both hash to 2112), so they derive
identical device identifiers — universal distinctness fails. -/
theorem c8_distinct_secrets_collide_counterexample :
    generateDeviceId ⟨none, some "Aa"⟩ = generateDeviceId ⟨none, some "BB"⟩ ∧
    generateAndroidId ⟨none, some "Aa"⟩ = generateAndroidId ⟨none, some "BB"⟩ ∧
    ("Aa" : String) ≠ "BB" ∧ ("Aa" : String) ≠ "" ∧ ("BB" : String) ≠ "" := by
  refine ⟨by decide, by decide, by decide, by decide, by decide⟩

/-! ### Dispatch layer (`client.ts`) and the Contabo request helper -/

/-- A JSON-ish value for transport bodies and error details. -/
inductive Json where
  | jnull
  | jbool (b : Bool)
  | jnum (n : Int)
  | jstr (s : String)
  | jobj (fields : List (String × Json))

/-- An `ApiError` (`types.ts`): machine code, human message, detail fields.
`code` is `none` when a plain thrown `Error` was cast to `ApiError`
(`error as ApiError` in the catch blocks), which has no `code` property. -/
structure ApiErrorM where
  code : Option String
  message : String
  details : List (String × Json)

/-- An `ApiResponse<T>` (`types.ts`). -/
structure ApiResponseM where
  success : Bool
  data : Option Json
  error : Option ApiErrorM

/-- The upstream structured error payload (`error.response.data.error`). -/
structure UpstreamError where
  code : Option String
  message : Option String
  extra : List (String × Json)

/-- The failure half of a transport outcome: an axios error (HTTP status,
optional structured payload, `retry-after` response header, error message)
or a non-axios throw. -/
inductive HttpFailure where
  | axios (status : Option Nat) (payloadError : Option UpstreamError)
      (retryAfter : Option String) (message : String)
  | nonAxios

/-- What the network transport did for one call: a 2xx axios resolution
(status, parsed body — the empty string for a no-content 204 — and the
parsed quota headers), or a rejection. The transport is an external
collaborator, so dispatch is parametrized by this outcome. -/
inductive HttpOutcome where
  | ok (status : Nat) (body : Json) (quota : QuotaHeaders)
  | err (f : HttpFailure)

/-- The `api` tag written into error details. -/
def apiName : ApiType → String
  | .graph => "graph"
  | .priv => "private"

/-- JS `x || y` for an optional string default. -/
def jsOrStr (x : Option String) (d : String) : String :=
  match x with
  | some s => if s = "" then d else s
  | none => d

def optStrJson : Option String → Json
  | some s => Json.jstr s
  | none => Json.jnull

def optNatJson : Option Nat → Json
  | some n => Json.jnum n
  | none => Json.jnull

/-- `handleApiError(error, api)`: classify a failed transport outcome
exactly as the interceptor does — 429, then 401/403, then a structured
upstream payload, then the generic cases. -/
def handleApiError (api : ApiType) : HttpFailure → ApiErrorM
  | .axios status payload retryAfter msg =>
    if status = some 429 then
      ⟨some "RATE_LIMIT_EXCEEDED", "Limite de requêtes atteinte. Réessayez plus tard.",
        [("api", Json.jstr (apiName api)), ("retry_after", optStrJson retryAfter)]⟩
    else if status = some 401 ∨ status = some 403 then
      ⟨some "AUTH_ERROR", "Erreur d\u0027authentification. Vérifiez vos tokens.",
        [("api", Json.jstr (apiName api)), ("status", optNatJson status)]⟩
    else
      match payload with
      | some e =>
        ⟨some (jsOrStr e.code "API_ERROR"), jsOrStr e.message "Erreur API Instagram",
          ("api", Json.jstr (apiName api)) ::
            ((e.code.map (fun c => ("code", Json.jstr c))).toList ++
              (e.message.map (fun m => ("message", Json.jstr m))).toList ++ e.extra)⟩
      | none =>
        ⟨some "REQUEST_FAILED", msg,
          [("api", Json.jstr (apiName api)), ("status", optNatJson status)]⟩
  | .nonAxios =>
    ⟨some "UNKNOWN_ERROR", "Une erreur inconnue s\u0027est produite",
      [("api", Json.jstr (apiName api))]⟩

/-- The `InstagramClient` state: credential store plus rate limiter. -/
structure InstagramClient where
  auth : AuthTokens
  rateLimiter : RateLimiter

/-- The rate-limited failure produced before any network call. -/
def rateLimitLocalError (st : InstagramClient) (cat : RLCategory) (now : Int) :
    ApiErrorM :=
  ⟨some "RATE_LIMIT_LOCAL",
    "Rate limit local atteint. Réessayez dans " ++
      st.rateLimiter.getWaitTimeFormatted cat now, []⟩

/-- `InstagramClient.get`: quota gate, header resolution, network call,
`consume` then `updateFromHeaders` on success. Returns the response, the
updated client and the number of network calls issued (0 or 1). -/
def InstagramClient.get (st : InstagramClient) (api : ApiType) (cat : RLCategory)
    (now : Int) (outcome : HttpOutcome) : ApiResponseM × InstagramClient × Nat :=
  let checked := st.rateLimiter.canExecute cat now
  if checked.1 = false then
    (⟨false, none, some (rateLimitLocalError st cat now)⟩, ⟨st.auth, checked.2⟩, 0)
  else
    match headersFor st.auth api with
    | .error msg => (⟨false, none, some ⟨none, msg, []⟩⟩, ⟨st.auth, checked.2⟩, 0)
    | .ok _ =>
      match outcome with
      | .ok _ body qh =>
        let rl2 := (checked.2.consume cat now).2
        (⟨true, some body, none⟩, ⟨st.auth, rl2.updateFromHeaders cat qh⟩, 1)
      | .err f =>
        (⟨false, none, some (handleApiError api f)⟩, ⟨st.auth, checked.2⟩, 1)

/-- `InstagramClient.post`: identical quota/auth/consume/resync structure. -/
def InstagramClient.post (st : InstagramClient) (api : ApiType) (cat : RLCategory)
    (now : Int) (outcome : HttpOutcome) : ApiResponseM × InstagramClient × Nat :=
  let checked := st.rateLimiter.canExecute cat now
  if checked.1 = false then
    (⟨false, none, some (rateLimitLocalError st cat now)⟩, ⟨st.auth, checked.2⟩, 0)
  else
    match headersFor st.auth api with
    | .error msg => (⟨false, none, some ⟨none, msg, []⟩⟩, ⟨st.auth, checked.2⟩, 0)
    | .ok _ =>
      match outcome with
      | .ok _ body qh =>
        let rl2 := (checked.2.consume cat now).2
        (⟨true, some body, none⟩, ⟨st.auth, rl2.updateFromHeaders cat qh⟩, 1)
      | .err f =>
        (⟨false, none, some (handleApiError api f)⟩, ⟨st.auth, checked.2⟩, 1)

/-- `InstagramClient.delete`: like `get`/`post` but the success path calls
only `consume` — the source has no `updateRateLimitsFromHeaders` here. -/
def InstagramClient.delete (st : InstagramClient) (api : ApiType) (cat : RLCategory)
    (now : Int) (outcome : HttpOutcome) : ApiResponseM × InstagramClient × Nat :=
  let checked := st.rateLimiter.canExecute cat now
  if checked.1 = false then
    (⟨false, none, some (rateLimitLocalError st cat now)⟩, ⟨st.auth, checked.2⟩, 0)
  else
    match headersFor st.auth api with
    | .error msg => (⟨false, none, some ⟨none, msg, []⟩⟩, ⟨st.auth, checked.2⟩, 0)
    | .ok _ =>
      match outcome with
      | .ok _ body _ =>
        let rl2 := (checked.2.consume cat now).2
        (⟨true, some body, none⟩, ⟨st.auth, rl2⟩, 1)
      | .err f =>
        (⟨false, none, some (handleApiError api f)⟩, ⟨st.auth, checked.2⟩, 1)

/-- `contaboRequest` response handling (`mcps/contabo/index.js`): non-2xx
throws, a 204 returns the synthetic `{success: true}`, otherwise the body. -/
def contaboResponse (status : Nat) (body : Json) : Except String Json :=
  if status < 200 ∨ 300 ≤ status then Except.error "Erreur API Contabo"
  else if status = 204 then Except.ok (Json.jobj [("success", Json.jbool true)])
  else Except.ok body

/-! ### C9: the media-processing poll loop (`posts.ts`) -/

/-- `waitForMediaProcessing(containerId, maxAttempts)`, parametrized by the
`status_code` field reported by the i-th status check (`none` when the
check failed or carried no data). Returns the boolean result of the source
together with the number of status checks performed. The source default for
`maxAttempts` is 30, with a fixed 2-second delay between attempts. -/
def waitForMediaProcessing (statusAt : Nat → Option String) :
    Nat → Nat → Bool × Nat
  | _, 0 => (false, 0)
  | i, fuel + 1 =>
    if statusAt i = some "FINISHED" then (true, 1)
    else if statusAt i = some "ERROR" then (false, 1)
    else
      let rest := waitForMediaProcessing statusAt (i + 1) fuel
      (rest.1, rest.2 + 1)

/-- C9: the poll loop performs at most `maxAttempts` status checks, and if
no check in the window reaches a terminal state (`FINISHED`/`ERROR`), it
terminates returning the failure value `false` after exactly `maxAttempts`
checks — no exception escape exists in the model, the function is total. -/
theorem c9_poll_bounded (statusAt : Nat → Option String) :
    ∀ (maxAttempts i : Nat),
      (waitForMediaProcessing statusAt i maxAttempts).2 ≤ maxAttempts ∧
      ((∀ j, i ≤ j → j < i + maxAttempts →
          statusAt j ≠ some "FINISHED" ∧ statusAt j ≠ some "ERROR") →
        waitForMediaProcessing statusAt i maxAttempts = (false, maxAttempts)) := by
  intro maxAttempts
  induction maxAttempts with
  | zero =>
    intro i
    exact ⟨le_rfl, fun _ => rfl⟩
  | succ fuel ih =>
    intro i
    have hcur := (ih (i + 1)).1
    constructor
    · unfold waitForMediaProcessing
      by_cases h1 : statusAt i = some "FINISHED"
      · simp [h1]
      · by_cases h2 : statusAt i = some "ERROR"
        · simp [h1, h2]
        · simp only [h1, h2, if_false, if_neg]
          simp
          omega
    · intro hnone
      have hterm := hnone i le_rfl (by omega)
      have hrec := (ih (i + 1)).2
        (fun j hj1 hj2 => hnone j (by omega) (by omega))
      unfold waitForMediaProcessing
      rw [if_neg hterm.1, if_neg hterm.2, hrec]

/-- Witness for C9: with a status source that never reaches a terminal
state, 30 attempts (the source default) are used and `false` is returned. -/
theorem c9_poll_bounded_witness :
    (waitForMediaProcessing (fun _ => none) 0 30).2 ≤ 30 ∧
    waitForMediaProcessing (fun _ => none) 0 30 = (false, 30) :=
  ⟨(c9_poll_bounded (fun _ => none) 30 0).1,
    (c9_poll_bounded (fun _ => none) 30 0).2 (fun _ _ _ => ⟨by simp, by simp⟩)⟩

/-! ### C3: a local rate-limit rejection never reaches the network -/

/-- C3: whenever `canExecute` answers false, each dispatch method (`get`,
`post`, `delete`) returns the `RATE_LIMIT_LOCAL` failure whose message
carries the formatted wait time, and issues zero network calls. -/
theorem c3_rate_limited_no_network (st : InstagramClient) (api : ApiType)
    (cat : RLCategory) (now : Int) (outcome : HttpOutcome)
    (h : (st.rateLimiter.canExecute cat now).1 = false) :
    (st.get api cat now outcome).1 =
      ⟨false, none, some (rateLimitLocalError st cat now)⟩ ∧
    (st.get api cat now outcome).2.2 = 0 ∧
    (st.post api cat now outcome).1 =
      ⟨false, none, some (rateLimitLocalError st cat now)⟩ ∧
    (st.post api cat now outcome).2.2 = 0 ∧
    (st.delete api cat now outcome).1 =
      ⟨false, none, some (rateLimitLocalError st cat now)⟩ ∧
    (st.delete api cat now outcome).2.2 = 0 ∧
    (rateLimitLocalError st cat now).code = some "RATE_LIMIT_LOCAL" ∧
    (rateLimitLocalError st cat now).message =
      "Rate limit local atteint. Réessayez dans " ++
        st.rateLimiter.getWaitTimeFormatted cat now := by
  refine ⟨?_, ?_, ?_, ?_, ?_, ?_, rfl, rfl⟩ <;>
    simp [InstagramClient.get, InstagramClient.post, InstagramClient.delete, h]

/-- Witness for C3 at a concrete exhausted bucket (remaining resynced to
0): the `get` dispatch returns the local rate-limit failure and issues no
network call. -/
theorem c3_rate_limited_no_network_witness :
    ((⟨⟨some "tok", some "sess"⟩,
        (RateLimiter.init true 0).updateFromHeaders .read ⟨some 0, none, none⟩⟩ :
        InstagramClient).get .graph .read 5
          (.ok 200 Json.jnull QuotaHeaders.none')).1 =
      ⟨false, none, some (rateLimitLocalError
        ⟨⟨some "tok", some "sess"⟩,
          (RateLimiter.init true 0).updateFromHeaders .read ⟨some 0, none, none⟩⟩
        .read 5)⟩ ∧
    ((⟨⟨some "tok", some "sess"⟩,
        (RateLimiter.init true 0).updateFromHeaders .read ⟨some 0, none, none⟩⟩ :
        InstagramClient).get .graph .read 5
          (.ok 200 Json.jnull QuotaHeaders.none')).2.2 = 0 := by
  have h := c3_rate_limited_no_network
    ⟨⟨some "tok", some "sess"⟩,
      (RateLimiter.init true 0).updateFromHeaders .read ⟨some 0, none, none⟩⟩
    .graph .read 5 (.ok 200 Json.jnull QuotaHeaders.none') (by decide)
  exact ⟨h.1, h.2.1⟩

/-! ### C5: what the success path of each verb does to the tracker -/

/-- C5 (amended): on a network-level success with the quota gate open and
credentials resolvable, `get` and `post` run `consume` and then
`updateFromHeaders` on the tracker before returning the success result,
while `delete` runs only `consume` — its success path performs no header
resync. Each verb issues exactly one network call. -/
theorem c5_success_consume_then_resync (st : InstagramClient) (api : ApiType)
    (cat : RLCategory) (now : Int) (status : Nat) (body : Json)
    (qh : QuotaHeaders)
    (hcan : (st.rateLimiter.canExecute cat now).1 = true)
    (hs : ∃ hsx, headersFor st.auth api = .ok hsx) :
    st.get api cat now (.ok status body qh) =
      (⟨true, some body, none⟩,
        ⟨st.auth,
          (((st.rateLimiter.canExecute cat now).2.consume cat now).2).updateFromHeaders
            cat qh⟩, 1) ∧
    st.post api cat now (.ok status body qh) =
      (⟨true, some body, none⟩,
        ⟨st.auth,
          (((st.rateLimiter.canExecute cat now).2.consume cat now).2).updateFromHeaders
            cat qh⟩, 1) ∧
    st.delete api cat now (.ok status body qh) =
      (⟨true, some body, none⟩,
        ⟨st.auth, ((st.rateLimiter.canExecute cat now).2.consume cat now).2⟩, 1) := by
  obtain ⟨hsx, hx⟩ := hs
  refine ⟨?_, ?_, ?_⟩ <;>
    simp [InstagramClient.get, InstagramClient.post, InstagramClient.delete, hcan, hx]

/-- Witness for C5 (amended) at a fresh client: `get` ends with the header
resync applied after `consume`, `delete` ends right after `consume`. -/
theorem c5_success_consume_then_resync_witness :
    (⟨⟨some "tok", some "sess"⟩, RateLimiter.init true 0⟩ : InstagramClient).get
        .graph .write 5 (.ok 200 Json.jnull ⟨some 7, none, none⟩) =
      (⟨true, some Json.jnull, none⟩,
        ⟨⟨some "tok", some "sess"⟩,
          ((((RateLimiter.init true 0).canExecute .write 5).2.consume .write 5).2).updateFromHeaders
            .write ⟨some 7, none, none⟩⟩, 1) ∧
    (⟨⟨some "tok", some "sess"⟩, RateLimiter.init true 0⟩ : InstagramClient).delete
        .graph .write 5 (.ok 200 Json.jnull ⟨some 7, none, none⟩) =
      (⟨true, some Json.jnull, none⟩,
        ⟨⟨some "tok", some "sess"⟩,
          (((RateLimiter.init true 0).canExecute .write 5).2.consume .write 5).2⟩, 1) := by
  have h := c5_success_consume_then_resync
    ⟨⟨some "tok", some "sess"⟩, RateLimiter.init true 0⟩ .graph .write 5 200
    Json.jnull ⟨some 7, none, none⟩ (by decide) ⟨_, rfl⟩
  exact ⟨h.1, h.2.2⟩

/-- C5 counterexample: on a successful `delete` whose response carries
`x-ratelimit-remaining: 5`, the tracker keeps its locally consumed value
(24) instead of the server-reported 5, while the same response through
`get` does resync to 5 — so `delete` does not call the header resync. -/
theorem c5_delete_skips_resync_counterexample :
    ((((⟨⟨some "tok", none⟩, RateLimiter.init true 0⟩ : InstagramClient).delete
        .graph .write 5 (.ok 200 Json.jnull ⟨some 5, none, none⟩)).2.1.rateLimiter.buckets
          .write).remaining = 24) ∧
    ((((⟨⟨some "tok", none⟩, RateLimiter.init true 0⟩ : InstagramClient).get
        .graph .write 5 (.ok 200 Json.jnull ⟨some 5, none, none⟩)).2.1.rateLimiter.buckets
          .write).remaining = 5) := by
  exact ⟨by decide, by decide⟩

/-! ### C6: no-content successes and 429 classification -/

/-- C6 (amended): the Instagram dispatch returns the raw transport body as
the success value even for a 204 no-content response (the synthetic
`{success: true}` placeholder exists only in the Contabo request helper,
which returns it for every 204); a 429 rejection yields the
`RATE_LIMIT_EXCEEDED` failure whose `retry_after` detail is the value of
the retry-after response header. -/
theorem c6_no_content_and_429 (st : InstagramClient) (api : ApiType)
    (cat : RLCategory) (now : Int) (body : Json) (qh : QuotaHeaders)
    (payload : Option UpstreamError) (ra : Option String) (msg : String)
    (hcan : (st.rateLimiter.canExecute cat now).1 = true)
    (hs : ∃ hsx, headersFor st.auth api = .ok hsx) :
    (st.get api cat now (.ok 204 body qh)).1 = ⟨true, some body, none⟩ ∧
    (∀ b, contaboResponse 204 b = .ok (Json.jobj [("success", Json.jbool true)])) ∧
    (st.get api cat now (.err (.axios (some 429) payload ra msg))).1 =
      ⟨false, none, some ⟨some "RATE_LIMIT_EXCEEDED",
        "Limite de requêtes atteinte. Réessayez plus tard.",
        [("api", Json.jstr (apiName api)), ("retry_after", optStrJson ra)]⟩⟩ := by
  obtain ⟨hsx, hx⟩ := hs
  refine ⟨?_, fun b => rfl, ?_⟩
  · simp [InstagramClient.get, hcan, hx]
  · simp [InstagramClient.get, hcan, hx, handleApiError]

/-- Witness for C6 (amended) at a fresh client: a 204 with empty body comes
back as a success whose value is the empty body, and a 429 with
`retry-after: 37` comes back as `RATE_LIMIT_EXCEEDED` carrying `"37"`. -/
theorem c6_no_content_and_429_witness :
    ((⟨⟨some "tok", some "sess"⟩, RateLimiter.init true 0⟩ : InstagramClient).get
        .graph .read 5 (.ok 204 (Json.jstr "") QuotaHeaders.none')).1 =
      ⟨true, some (Json.jstr ""), none⟩ ∧
    ((⟨⟨some "tok", some "sess"⟩, RateLimiter.init true 0⟩ : InstagramClient).get
        .graph .read 5 (.err (.axios (some 429) none (some "37") "Request failed"))).1 =
      ⟨false, none, some ⟨some "RATE_LIMIT_EXCEEDED",
        "Limite de requêtes atteinte. Réessayez plus tard.",
        [("api", Json.jstr (apiName .graph)),
          ("retry_after", optStrJson (some "37"))]⟩⟩ := by
  have h := c6_no_content_and_429
    ⟨⟨some "tok", some "sess"⟩, RateLimiter.init true 0⟩ .graph .read 5
    (Json.jstr "") QuotaHeaders.none' none (some "37") "Request failed"
    (by decide) ⟨_, rfl⟩
  exact ⟨h.1, h.2.2⟩

/-- C6 counterexample: a 204 no-content success through the Instagram
dispatch yields the raw empty body as the value, not the synthetic
`{success: true}` object the claim requires. -/
theorem c6_204_value_not_synthetic_counterexample :
    ((⟨⟨some "tok", some "sess"⟩, RateLimiter.init true 0⟩ : InstagramClient).get
        .graph .read 5 (.ok 204 (Json.jstr "") QuotaHeaders.none')).1.data =
      some (Json.jstr "") ∧
    ¬ (((⟨⟨some "tok", some "sess"⟩, RateLimiter.init true 0⟩ : InstagramClient).get
        .graph .read 5 (.ok 204 (Json.jstr "") QuotaHeaders.none')).1.data =
      some (Json.jobj [("success", Json.jbool true)])) := by
  have e : ((⟨⟨some "tok", some "sess"⟩, RateLimiter.init true 0⟩ : InstagramClient).get
      .graph .read 5 (.ok 204 (Json.jstr "") QuotaHeaders.none')).1.data =
      some (Json.jstr "") := rfl
  refine ⟨e, fun h => ?_⟩
  rw [e] at h
  injection h with h2
  cases h2
